import Mathlib

/-!
# Verification of the soft-assertion core of `pytest-check`

Shallow embedding of `src/pytest_check/check_methods.py`.

The module-level mutable state (`_stop_on_fail : bool`, `_failures : list`)
is passed explicitly: functions take the current state and return the new
state.  Raising is modelled with an explicit result type (`PyResult`),
and a context manager's `__exit__` is a function from the exception info
(`Option ExcVal`, `none` = clean exit) to a record of (suppress flag,
new `self.msg`, new `_failures` list).

The call stack seen by `inspect.stack()` is passed to `log_failure` as a
list of frames, index 0 being the frame at `level = 3` (the frame of the
code that triggered the check, i.e. `log_failure`'s caller's caller), each
frame already carrying the fields `get_full_context` extracts: the
`os.path.relpath`-ed filename, the line number, the function name and the
stripped first context line.  Walking past the end of the captured stack
(an `IndexError` in CPython, which `inspect.stack()` cannot actually hit
because the interpreter's own frames terminate every stack) is modelled as
stopping the walk.

Python's exception classes are modelled by `ExcType`; the claims only ever
involve the distinct leaf classes `AssertionError`, `ValueError` and
`TypeError`, on which `issubclass` restricted to this set coincides with
equality, so `issubclass(t, tuple)` is membership of `t` in the tuple.
-/

set_option autoImplicit false

namespace PytestCheck

/-- A Python exception class (leaf classes only; see the module docstring). -/
inductive ExcType where
  | assertionError
  | valueError
  | typeError
  | keyError
  | other (name : String)
deriving DecidableEq, Repr

/-- A Python exception value: its class and its `str()` rendering
(for the builtin exception classes, `str(e)` is the message `e` was
constructed with). -/
structure ExcVal where
  type : ExcType
  msg : String
deriving DecidableEq, Repr

/-- `issubclass(t, expected)` for a tuple `expected` of leaf exception
classes: true iff `t` is one of them (Python returns `False` for the
empty tuple). -/
def issubclassAny (t : ExcType) (expected : List ExcType) : Bool :=
  expected.contains t

/-- Outcome of running a piece of Python code: normal return of a value,
or an uncaught exception propagating. -/
inductive PyResult (α : Type) where
  | ok (a : α)
  | exc (e : ExcVal)
deriving DecidableEq, Repr

/-- The `msg` argument accepted by `log_failure`: `None`, a string, or an
exception value. -/
inductive Msg where
  | none
  | str (s : String)
  | exc (e : ExcVal)
deriving DecidableEq, Repr

/-- `"{}".format(msg if msg else "")`: `None` and the empty string are
falsy and print as `""`; an exception value is always truthy and prints
as `str(e)`. -/
def msgText : Msg → String
  | Msg.none => ""
  | Msg.str s => if s = "" then "" else s
  | Msg.exc e => e.msg

/-- One entry of `inspect.stack()` after `get_full_context` has processed
it: relative file path, line number, enclosing function name, stripped
source line. -/
structure Frame where
  filename : String
  line : Nat
  funcname : String
  context : String
deriving DecidableEq, Repr

/-- Does the character list `s` start with `sub`? -/
def charsStartWith : List Char → List Char → Bool
  | [], _ => true
  | _ :: _, [] => false
  | a :: as, b :: bs => a == b && charsStartWith as bs

/-- Does `sub` occur as a contiguous run inside `s`? -/
def charsContain (sub : List Char) : List Char → Bool
  | [] => charsStartWith sub []
  | b :: bs => charsStartWith sub (b :: bs) || charsContain sub bs

/-- Python's substring test `sub in s`: `sub` occurs contiguously in `s`
(and the empty `sub` is in every string). -/
def pyIn (sub s : String) : Bool :=
  charsContain sub.data s.data

/-- `"{}:{} in {}() -> {}".format(file, line, func, context)`
(line 279 of `check_methods.py`). -/
def formatFrameLine (f : Frame) : String :=
  f.filename ++ ":" ++ toString f.line ++ " in " ++ f.funcname ++ "() -> " ++ f.context

/-- The `while "test_" not in func` loop of `log_failure`
(lines 272-281): fetch the frame at the current level; stop before
appending if its path contains `"site-packages"`; otherwise append the
rendered line, and stop after appending if the function name contains
`"test_"` (the loop condition, rechecked on the just-fetched name). -/
def pseudoTraceLoop : List Frame → List String
  | [] => []
  | f :: rest =>
    if pyIn "site-packages" f.filename then []
    else if pyIn "test_" f.funcname then [formatFrameLine f]
    else formatFrameLine f :: pseudoTraceLoop rest

/-- The frames the loop of `log_failure` collects (the same walk as
`pseudoTraceLoop`, before rendering); analysis helper. -/
def collectFrames : List Frame → List Frame
  | [] => []
  | f :: rest =>
    if pyIn "site-packages" f.filename then []
    else if pyIn "test_" f.funcname then [f]
    else f :: collectFrames rest

/-- The entry string `log_failure` appends:
`"FAILURE: {}\n{}".format(msg if msg else "", "\n".join(reversed(pseudo_trace)))`. -/
def mkEntry (msg : Msg) (frames : List Frame) : String :=
  "FAILURE: " ++ msgText msg ++ "\n"
    ++ String.intercalate "\n" (pseudoTraceLoop frames).reverse

/-- `log_failure(msg)` (lines 259-284): build the pseudo-traceback from
the current stack and append one entry to `_failures`. -/
def log_failure (msg : Msg) (frames : List Frame) (failures : List String) :
    List String :=
  failures ++ [mkEntry msg frames]

/-- `clear_failures()` (lines 35-37): the new value of `_failures`. -/
def clear_failures : List String := []

/-- `get_failures()` (lines 40-41): returns the current `_failures`. -/
def get_failures (failures : List String) : List String := failures

/-- A sequence of `log_failure` calls (each with its message and the
stack at its call site) applied in order to a starting `_failures`. -/
def logMany (ops : List (Msg × List Frame)) (failures : List String) :
    List String :=
  ops.foldl (fun fs op => log_failure op.1 op.2 fs) failures

/-- The wrapper produced by `check_func` (lines 79-92), applied to the
outcome `body` of `func(*args, **kwds)`: on normal return, return `True`;
on an `AssertionError` re-raise it if `_stop_on_fail` else log it and
return `False`; any other exception is not caught. -/
def check_func_wrapper (stop_on_fail : Bool) (body : PyResult Unit)
    (frames : List Frame) (failures : List String) :
    PyResult Bool × List String :=
  match body with
  | PyResult.ok _ => (PyResult.ok true, failures)
  | PyResult.exc e =>
    if issubclassAny e.type [ExcType.assertionError] then
      if stop_on_fail then (PyResult.exc e, failures)
      else (PyResult.ok false, log_failure (Msg.exc e) frames failures)
    else (PyResult.exc e, failures)

/-- What a context manager's `__exit__` produces in this embedding:
whether the exception is suppressed (`return True` vs a falsy return),
the new `self.msg`, and the new `_failures`. -/
structure ExitResult where
  suppress : Bool
  msg : Option String
  failures : List String
deriving DecidableEq, Repr

namespace CheckContextManager

/-- `CheckContextManager.__exit__` (lines 56-69): on an `AssertionError`,
either propagate it (strict) or log `self.msg` if set else the exception
value and suppress; on anything else (including a clean exit) do nothing
and do not suppress; `self.msg` is set to `None` on every path. -/
def exitCM (selfMsg : Option String) (stop_on_fail : Bool)
    (excInfo : Option ExcVal) (frames : List Frame) (failures : List String) :
    ExitResult :=
  match excInfo with
  | some e =>
    if issubclassAny e.type [ExcType.assertionError] then
      if stop_on_fail then ⟨false, none, failures⟩
      else
        match selfMsg with
        | some m => ⟨true, none, log_failure (Msg.str m) frames failures⟩
        | none => ⟨true, none, log_failure (Msg.exc e) frames failures⟩
    else ⟨false, none, failures⟩
  | none => ⟨false, none, failures⟩

/-- `CheckContextManager.__call__` (lines 71-73): store the message and
return the (shared) manager itself. -/
def callCM (msg : Option String) : Option String := msg

end CheckContextManager

/-- The state of a `CheckRaisesContext` instance (lines 209-211): the
tuple of expected exception classes and the optional message. -/
structure CheckRaisesContext where
  expected_excs : List ExcType
  msg : Option String
deriving DecidableEq, Repr

namespace CheckRaisesContext

/-- `CheckRaisesContext.__exit__` (lines 216-239): if an exception
occurred and its class is a subclass of one of `expected_excs`, suppress
it silently; otherwise (a non-matching exception, or no exception at
all) propagate without logging when `_stop_on_fail`, else log `self.msg`
if set (otherwise the exception value, which is `None` on a clean exit)
and suppress; `self.msg` is set to `None` on every path. -/
def exitRC (self : CheckRaisesContext) (stop_on_fail : Bool)
    (excInfo : Option ExcVal) (frames : List Frame) (failures : List String) :
    ExitResult :=
  if (match excInfo with
      | some e => issubclassAny e.type self.expected_excs
      | none => false) then
    ⟨true, none, failures⟩
  else
    if stop_on_fail then ⟨false, none, failures⟩
    else
      match self.msg with
      | some m => ⟨true, none, log_failure (Msg.str m) frames failures⟩
      | none =>
        match excInfo with
        | some e => ⟨true, none, log_failure (Msg.exc e) frames failures⟩
        | none => ⟨true, none, log_failure Msg.none frames failures⟩

/-- `CheckRaisesContext.__call__` (lines 241-245): set `self.msg := msg`,
run the callable, and return `self` — there is no `try`/`except` here, so
an exception from the callable propagates out of the call.  The first
component is the state of `self` after the call (its `msg` was mutated
before the callable ran). -/
def callRC (self : CheckRaisesContext) (msg : Option String)
    (body : PyResult Unit) : CheckRaisesContext × PyResult CheckRaisesContext :=
  let upd : CheckRaisesContext := { self with msg := msg }
  (upd,
    match body with
    | PyResult.ok _ => PyResult.ok upd
    | PyResult.exc e => PyResult.exc e)

end CheckRaisesContext

/-! ## Helper lemmas -/

/-- The rendered pseudo-trace is the collected frames, each rendered. -/
theorem pseudoTraceLoop_eq_map (frames : List Frame) :
    pseudoTraceLoop frames = (collectFrames frames).map formatFrameLine := by
  induction frames with
  | nil => rfl
  | cons f rest ih =>
    simp only [pseudoTraceLoop, collectFrames]
    split
    · rfl
    · split
      · rfl
      · simp [ih]

/-- The collected frames are an initial segment of the walked stack. -/
theorem collectFrames_take (frames : List Frame) :
    ∃ k, collectFrames frames = frames.take k := by
  induction frames with
  | nil => exact ⟨0, rfl⟩
  | cons f rest ih =>
    obtain ⟨k, hk⟩ := ih
    simp only [collectFrames]
    split
    · exact ⟨0, rfl⟩
    · split
      · exact ⟨1, rfl⟩
      · exact ⟨k + 1, by simp [hk]⟩

/-- No collected frame lies in installed library code. -/
theorem collectFrames_no_lib (frames : List Frame) (g : Frame)
    (hg : g ∈ collectFrames frames) :
    pyIn "site-packages" g.filename = false := by
  induction frames with
  | nil => simp [collectFrames] at hg
  | cons f rest ih =>
    simp only [collectFrames] at hg
    split at hg
    · simp at hg
    · next hsite =>
      split at hg
      · simp only [List.mem_singleton] at hg
        subst hg
        simpa using hsite
      · rcases List.mem_cons.mp hg with h | h
        · subst h
          simpa using hsite
        · exact ih h

/-- Every collected frame except possibly the last one lacks the
test-function marker: a marked frame ends the collection. -/
theorem collectFrames_test_last (frames : List Frame) (g : Frame)
    (hg : g ∈ (collectFrames frames).dropLast) :
    pyIn "test_" g.funcname = false := by
  induction frames with
  | nil => simp [collectFrames] at hg
  | cons f rest ih =>
    simp only [collectFrames] at hg
    split at hg
    · simp at hg
    · split at hg
      · simp at hg
      · next htest =>
        cases hrest : collectFrames rest with
        | nil =>
          rw [hrest] at hg
          simp at hg
        | cons x xs =>
          rw [hrest, List.dropLast_cons₂] at hg
          rcases List.mem_cons.mp hg with h | h
          · subst h
            simpa using htest
          · exact ih (by rw [hrest]; exact h)

/-- `issubclass` against a one-class tuple is equality of classes. -/
theorem issubclassAny_single (t u : ExcType) :
    issubclassAny t [u] = (t == u) := by
  cases h : t == u <;> simp [issubclassAny, List.contains, List.elem, h]

/-- Running a sequence of `log_failure` calls appends the corresponding
entries, in order, after the starting list. -/
theorem logMany_eq (ops : List (Msg × List Frame)) (fs : List String) :
    logMany ops fs = fs ++ ops.map (fun op => mkEntry op.1 op.2) := by
  induction ops generalizing fs with
  | nil => simp [logMany]
  | cons op rest ih =>
    have h : logMany (op :: rest) fs = logMany rest (log_failure op.1 op.2 fs) := rfl
    rw [h, ih]
    simp [log_failure]

/-! ## Claims -/

/-- C1 (counterexample): the claim's first case reads "if the wrapped
body raises no assertion failure, the wrapper returns True and the
Failure Log is unchanged".  A body that raises a `ValueError` raises no
assertion failure, yet the wrapper does not return `True`: the
`ValueError` is not caught by `except AssertionError` and propagates. -/
theorem c1_counterexample :
    check_func_wrapper false (PyResult.exc ⟨ExcType.valueError, "boom"⟩) [] []
      ≠ (PyResult.ok true, ([] : List String)) := by decide

/-- C1 (amended): for every function wrapped by `check_func` and every
argument list: if the wrapped body returns without raising, the wrapper
returns `True` and the Failure Log is unchanged; if the body raises an
assertion failure and Strict Mode is on, the wrapper re-raises that same
failure without logging; if the body raises an assertion failure and
Strict Mode is off, the wrapper calls `log_failure` with the failure's
value and returns `False` instead of raising; a non-assertion exception
propagates unchanged without logging. -/
theorem c1_check_func_amended (sof : Bool) (e : ExcVal)
    (frames : List Frame) (fs : List String) :
    check_func_wrapper sof (PyResult.ok ()) frames fs = (PyResult.ok true, fs)
    ∧ (e.type = ExcType.assertionError → sof = true →
        check_func_wrapper sof (PyResult.exc e) frames fs = (PyResult.exc e, fs))
    ∧ (e.type = ExcType.assertionError → sof = false →
        check_func_wrapper sof (PyResult.exc e) frames fs
          = (PyResult.ok false, fs ++ [mkEntry (Msg.exc e) frames]))
    ∧ (e.type ≠ ExcType.assertionError →
        check_func_wrapper sof (PyResult.exc e) frames fs = (PyResult.exc e, fs)) := by
  refine ⟨rfl, ?_, ?_, ?_⟩
  · rintro hA rfl
    simp [check_func_wrapper, issubclassAny_single, hA]
  · rintro hA rfl
    simp [check_func_wrapper, issubclassAny_single, hA, log_failure]
  · intro hA
    have hguard : issubclassAny e.type [ExcType.assertionError] = false := by
      rw [issubclassAny_single]
      exact beq_eq_false_iff_ne.mpr hA
    simp [check_func_wrapper, hguard]

/-- C1 (witness): the amended wrapper contract at concrete inputs. -/
theorem c1_witness :
    check_func_wrapper true (PyResult.ok ()) [] [] = (PyResult.ok true, [])
    ∧ check_func_wrapper true (PyResult.exc ⟨ExcType.assertionError, "a"⟩) [] []
        = (PyResult.exc ⟨ExcType.assertionError, "a"⟩, [])
    ∧ check_func_wrapper false (PyResult.exc ⟨ExcType.assertionError, "a"⟩) [] []
        = (PyResult.ok false, [mkEntry (Msg.exc ⟨ExcType.assertionError, "a"⟩) []])
    ∧ check_func_wrapper false (PyResult.exc ⟨ExcType.typeError, "t"⟩) [] []
        = (PyResult.exc ⟨ExcType.typeError, "t"⟩, []) :=
  ⟨(c1_check_func_amended true ⟨ExcType.assertionError, "a"⟩ [] []).1,
   (c1_check_func_amended true ⟨ExcType.assertionError, "a"⟩ [] []).2.1 rfl rfl,
   (c1_check_func_amended false ⟨ExcType.assertionError, "a"⟩ [] []).2.2.1 rfl rfl,
   (c1_check_func_amended false ⟨ExcType.typeError, "t"⟩ [] []).2.2.2 (by decide)⟩

/-- C2: on every exit of the shared Soft-Check Scope, the configured
message is reset to `None` (so a message never leaks into a later
activation); if the exception is an assertion failure and Strict Mode is
off, exactly one failure is logged — with the configured message if one
was set, otherwise the caught failure's value — and the exception is
suppressed; if the exception is anything else (including a clean exit),
nothing is logged and the exception (if any) is not suppressed. -/
theorem c2_soft_check_scope_exit (selfMsg : Option String) (sof : Bool)
    (excInfo : Option ExcVal) (frames : List Frame) (fs : List String) :
    (CheckContextManager.exitCM selfMsg sof excInfo frames fs).msg = none
    ∧ (∀ e, excInfo = some e → e.type = ExcType.assertionError → sof = false →
        (CheckContextManager.exitCM selfMsg sof excInfo frames fs).suppress = true
        ∧ (CheckContextManager.exitCM selfMsg sof excInfo frames fs).failures
            = fs ++ [mkEntry (match selfMsg with
                | some m => Msg.str m
                | none => Msg.exc e) frames])
    ∧ ((∀ e, excInfo = some e → e.type ≠ ExcType.assertionError) →
        (CheckContextManager.exitCM selfMsg sof excInfo frames fs).suppress = false
        ∧ (CheckContextManager.exitCM selfMsg sof excInfo frames fs).failures = fs) := by
  refine ⟨?_, ?_, ?_⟩
  · rcases excInfo with _ | e
    · rfl
    · simp only [CheckContextManager.exitCM]
      split
      · split
        · rfl
        · rcases selfMsg with _ | m <;> rfl
      · rfl
  · rintro e rfl hA rfl
    rcases selfMsg with _ | m <;>
      simp [CheckContextManager.exitCM, issubclassAny_single, hA, log_failure]
  · intro hne
    rcases excInfo with _ | e
    · exact ⟨rfl, rfl⟩
    · have hguard : issubclassAny e.type [ExcType.assertionError] = false := by
        rw [issubclassAny_single]
        exact beq_eq_false_iff_ne.mpr (hne e rfl)
      simp [CheckContextManager.exitCM, hguard]

/-- C2 (witness): a configured message, an assertion failure and Strict
Mode off: the exit suppresses and logs exactly the configured message. -/
theorem c2_witness :
    (CheckContextManager.exitCM (some "custom") false
        (some ⟨ExcType.assertionError, "assert failed"⟩) [] []).suppress = true
    ∧ (CheckContextManager.exitCM (some "custom") false
        (some ⟨ExcType.assertionError, "assert failed"⟩) [] []).failures
        = [mkEntry (Msg.str "custom") []] :=
  (c2_soft_check_scope_exit (some "custom") false
      (some ⟨ExcType.assertionError, "assert failed"⟩) [] []).2.1
    ⟨ExcType.assertionError, "assert failed"⟩ rfl rfl rfl

/-- C3: starting from a cleared log, any sequence of `N` `log_failure`
calls leaves `get_failures()` with exactly `N` entries, in trigger
order (the entry built from the i-th call sits at position i); each
`log_failure` call appends exactly one record at the end, never removing
or reordering existing records; and `clear_failures` empties the log to
zero entries regardless of its prior contents. -/
theorem c3_failure_log_append_order (ops : List (Msg × List Frame))
    (m : Msg) (fr : List Frame) (fs : List String) :
    get_failures (logMany ops clear_failures)
      = ops.map (fun op => mkEntry op.1 op.2)
    ∧ (logMany ops clear_failures).length = ops.length
    ∧ log_failure m fr fs = fs ++ [mkEntry m fr]
    ∧ clear_failures = ([] : List String) := by
  refine ⟨?_, ?_, rfl, rfl⟩
  · rw [get_failures, logMany_eq]
    simp [clear_failures]
  · rw [logMany_eq]
    simp [clear_failures]

/-- C4: an Exception-Expectation Scope watching for `ValueError`: a
raised `ValueError` is suppressed with no log entry appended; a raised
`TypeError` with Strict Mode off appends exactly one log entry and does
not propagate; a raised `TypeError` with Strict Mode on propagates
unchanged and nothing is logged. -/
theorem c4_raises_value_error_scope (v t : String) (selfMsg : Option String)
    (frames : List Frame) (fs : List String) (sof : Bool) :
    (CheckRaisesContext.exitRC ⟨[ExcType.valueError], selfMsg⟩ sof
        (some ⟨ExcType.valueError, v⟩) frames fs).suppress = true
    ∧ (CheckRaisesContext.exitRC ⟨[ExcType.valueError], selfMsg⟩ sof
        (some ⟨ExcType.valueError, v⟩) frames fs).failures = fs
    ∧ (sof = false →
        (CheckRaisesContext.exitRC ⟨[ExcType.valueError], selfMsg⟩ sof
            (some ⟨ExcType.typeError, t⟩) frames fs).suppress = true
        ∧ (CheckRaisesContext.exitRC ⟨[ExcType.valueError], selfMsg⟩ sof
            (some ⟨ExcType.typeError, t⟩) frames fs).failures
            = fs ++ [mkEntry (match selfMsg with
                | some m => Msg.str m
                | none => Msg.exc ⟨ExcType.typeError, t⟩) frames])
    ∧ (sof = true →
        CheckRaisesContext.exitRC ⟨[ExcType.valueError], selfMsg⟩ sof
            (some ⟨ExcType.typeError, t⟩) frames fs = ⟨false, none, fs⟩) := by
  refine ⟨rfl, rfl, ?_, ?_⟩
  · rintro rfl
    rcases selfMsg with _ | m <;> exact ⟨rfl, rfl⟩
  · rintro rfl
    rfl

/-- C4 (witness): the non-strict `TypeError` branch at concrete inputs. -/
theorem c4_witness :
    (CheckRaisesContext.exitRC ⟨[ExcType.valueError], none⟩ false
        (some ⟨ExcType.typeError, "bad type"⟩) [] []).suppress = true
    ∧ (CheckRaisesContext.exitRC ⟨[ExcType.valueError], none⟩ false
        (some ⟨ExcType.typeError, "bad type"⟩) [] []).failures
        = [mkEntry (Msg.exc ⟨ExcType.typeError, "bad type"⟩) []] :=
  (c4_raises_value_error_scope "v" "bad type" none [] [] false).2.2.1 rfl

/-- C5 (counterexample): the claim says an exception that is neither an
assertion failure nor a watched type "always propagates ... and is never
recorded".  Inside an Exception-Expectation Scope watching `ValueError`,
with Strict Mode off, a raised `TypeError` is suppressed (`__exit__`
returns `True`) and one entry is recorded. -/
theorem c5_counterexample :
    (CheckRaisesContext.exitRC ⟨[ExcType.valueError], none⟩ false
        (some ⟨ExcType.typeError, "boom"⟩) [] []).suppress = true
    ∧ ((CheckRaisesContext.exitRC ⟨[ExcType.valueError], none⟩ false
        (some ⟨ExcType.typeError, "boom"⟩) [] []).failures).length = 1 :=
  ⟨rfl, rfl⟩

/-- C5 (amended): an exception that is neither an assertion failure nor
one of the watched types propagates unrecorded when it occurs in the
Soft-Check Scope (in either mode) or in an Exception-Expectation Scope
with Strict Mode on; with Strict Mode off, an Exception-Expectation
Scope instead records it as exactly one soft failure and suppresses it. -/
theorem c5_amended_unexpected_exception (e : ExcVal) (expected : List ExcType)
    (selfMsg : Option String) (frames : List Frame) (fs : List String) :
    (e.type ≠ ExcType.assertionError → ∀ sof,
        CheckContextManager.exitCM selfMsg sof (some e) frames fs
          = ⟨false, none, fs⟩)
    ∧ (issubclassAny e.type expected = false →
        CheckRaisesContext.exitRC ⟨expected, selfMsg⟩ true (some e) frames fs
          = ⟨false, none, fs⟩)
    ∧ (issubclassAny e.type expected = false →
        (CheckRaisesContext.exitRC ⟨expected, selfMsg⟩ false
            (some e) frames fs).suppress = true
        ∧ (CheckRaisesContext.exitRC ⟨expected, selfMsg⟩ false
            (some e) frames fs).failures
            = fs ++ [mkEntry (match selfMsg with
                | some m => Msg.str m
                | none => Msg.exc e) frames]) := by
  refine ⟨?_, ?_, ?_⟩
  · intro hA sof
    have hguard : issubclassAny e.type [ExcType.assertionError] = false := by
      rw [issubclassAny_single]
      exact beq_eq_false_iff_ne.mpr hA
    simp [CheckContextManager.exitCM, hguard]
  · intro h
    simp [CheckRaisesContext.exitRC, h]
  · intro h
    rcases selfMsg with _ | m <;>
      simp [CheckRaisesContext.exitRC, h, log_failure]

/-- C5 (witness): a `KeyError` inside a scope watching `ValueError`,
Strict Mode off: logged once and suppressed. -/
theorem c5_witness :
    (CheckRaisesContext.exitRC ⟨[ExcType.valueError], none⟩ false
        (some ⟨ExcType.keyError, "missing"⟩) [] []).suppress = true
    ∧ (CheckRaisesContext.exitRC ⟨[ExcType.valueError], none⟩ false
        (some ⟨ExcType.keyError, "missing"⟩) [] []).failures
        = [mkEntry (Msg.exc ⟨ExcType.keyError, "missing"⟩) []] :=
  (c5_amended_unexpected_exception ⟨ExcType.keyError, "missing"⟩
      [ExcType.valueError] none [] []).2.2 rfl

/-- C6 (counterexample): the claim says a guarded block that completes
without raising leaves the Failure Log unchanged in both modes.  With
Strict Mode off, `CheckRaisesContext.__exit__` on a clean exit
(`exc_type is None`) falls into the non-matching branch and calls
`log_failure`, appending one entry. -/
theorem c6_counterexample :
    ((CheckRaisesContext.exitRC ⟨[ExcType.valueError], none⟩ false
        none [] []).failures).length = 1 := rfl

/-- C6 (amended): when the guarded block of an Exception-Expectation
Scope completes without raising, the exit leaves the Failure Log
unchanged in strict mode; in non-strict mode it appends exactly one
failure, built from the configured message if one was set and otherwise
from the (absent, `None`) exception value. -/
theorem c6_amended_clean_exit (expected : List ExcType)
    (selfMsg : Option String) (frames : List Frame) (fs : List String) :
    (CheckRaisesContext.exitRC ⟨expected, selfMsg⟩ true none frames fs).failures
      = fs
    ∧ (CheckRaisesContext.exitRC ⟨expected, selfMsg⟩ false none frames fs).failures
      = fs ++ [mkEntry (match selfMsg with
          | some m => Msg.str m
          | none => Msg.none) frames] := by
  constructor
  · rfl
  · rcases selfMsg with _ | m <;> rfl

/-- C7: the claim (and the class's own docstring) says that invoking the
scope as `scope(callable, *args, msg=m)` runs the callable under the
same suppression contract as the `with`-block form and returns the scope
object.  `CheckRaisesContext.__call__` has no `try`/`except`: even the
expected `ValueError` propagates out of the call instead of being
suppressed, the scope object is never returned, and `log_failure` is
not reachable from `__call__` at all (its result does not touch the
Failure Log). -/
theorem c7_call_propagates_expected :
    CheckRaisesContext.callRC ⟨[ExcType.valueError], none⟩ none
        (PyResult.exc ⟨ExcType.valueError, "boom"⟩)
      = (⟨[ExcType.valueError], none⟩,
         PyResult.exc ⟨ExcType.valueError, "boom"⟩) := rfl

/-- C8: with Strict Mode on, the first soft-check failure — a failing
wrapped predicate, or an assertion failure inside the Soft-Check Scope —
propagates immediately (the wrapper re-raises the same exception; the
scope's exit does not suppress), and the Failure Log after the attempt
equals the log before it. -/
theorem c8_strict_mode_first_failure (e : ExcVal) (selfMsg : Option String)
    (frames : List Frame) (fs : List String)
    (hA : e.type = ExcType.assertionError) :
    check_func_wrapper true (PyResult.exc e) frames fs = (PyResult.exc e, fs)
    ∧ CheckContextManager.exitCM selfMsg true (some e) frames fs
        = ⟨false, none, fs⟩ := by
  constructor
  · simp [check_func_wrapper, issubclassAny_single, hA]
  · simp [CheckContextManager.exitCM, issubclassAny_single, hA]

/-- C8 (witness): a strict-mode assertion failure at concrete inputs. -/
theorem c8_witness :
    check_func_wrapper true (PyResult.exc ⟨ExcType.assertionError, "x"⟩) [] []
        = (PyResult.exc ⟨ExcType.assertionError, "x"⟩, [])
    ∧ CheckContextManager.exitCM none true
        (some ⟨ExcType.assertionError, "x"⟩) [] []
        = ⟨false, none, []⟩ :=
  c8_strict_mode_first_failure ⟨ExcType.assertionError, "x"⟩ none [] [] rfl

/-- C9: every line of the pseudo-trace renders a visited frame as
`"<path>:<line> in <function>() -> <source>"`; the walk collects an
initial segment of the stack; a frame whose path contains
`"site-packages"` is never collected; a collected frame whose function
name contains `"test_"` can only be the last one collected; the logged
entry joins the collected lines in reverse collection order; and for a
failure triggered directly inside a test function (first walked frame
marked `"test_"`, not in library code) the trace is exactly that test
frame's line, hence the test frame is its first line. -/
theorem c9_pseudo_trace (f : Frame) (rest : List Frame)
    (hTest : pyIn "test_" f.funcname = true)
    (hLib : pyIn "site-packages" f.filename = false) :
    pseudoTraceLoop (f :: rest) = [formatFrameLine f]
    ∧ (∀ frames : List Frame,
        pseudoTraceLoop frames = (collectFrames frames).map formatFrameLine)
    ∧ (∀ frames : List Frame, ∃ k, collectFrames frames = frames.take k)
    ∧ (∀ frames : List Frame, ∀ g ∈ collectFrames frames,
        pyIn "site-packages" g.filename = false)
    ∧ (∀ frames : List Frame, ∀ g ∈ (collectFrames frames).dropLast,
        pyIn "test_" g.funcname = false)
    ∧ (∀ (msg : Msg) (frames : List Frame) (fs : List String),
        log_failure msg frames fs
          = fs ++ ["FAILURE: " ++ msgText msg ++ "\n"
              ++ String.intercalate "\n" (pseudoTraceLoop frames).reverse]) := by
  refine ⟨?_, pseudoTraceLoop_eq_map, collectFrames_take,
    collectFrames_no_lib, collectFrames_test_last, fun _ _ _ => rfl⟩
  simp [pseudoTraceLoop, hTest, hLib]

/-- C9 (witness): a failure triggered directly inside a test function:
the trace is the single rendered test-frame line. -/
theorem c9_witness :
    pseudoTraceLoop [⟨"tests/test_sample.py", 14, "test_sample", "assert 1 == 2"⟩]
      = [formatFrameLine
          ⟨"tests/test_sample.py", 14, "test_sample", "assert 1 == 2"⟩] :=
  (c9_pseudo_trace ⟨"tests/test_sample.py", 14, "test_sample", "assert 1 == 2"⟩
      [] (by decide) (by decide)).1

/-- C10: a scope built by `raises()` with no type arguments has an empty
expected tuple, and `issubclass` against the empty tuple is always
false, so every exception raised in its block — an assertion failure
included — is unmatched: with Strict Mode off it is logged as one soft
failure and suppressed; with Strict Mode on it propagates unchanged and
nothing is logged. -/
theorem c10_empty_expected_types (e : ExcVal) (selfMsg : Option String)
    (frames : List Frame) (fs : List String) (sof : Bool) :
    issubclassAny e.type [] = false
    ∧ (sof = false →
        (CheckRaisesContext.exitRC ⟨[], selfMsg⟩ sof (some e) frames fs).suppress
          = true
        ∧ (CheckRaisesContext.exitRC ⟨[], selfMsg⟩ sof (some e) frames fs).failures
          = fs ++ [mkEntry (match selfMsg with
              | some m => Msg.str m
              | none => Msg.exc e) frames])
    ∧ (sof = true →
        CheckRaisesContext.exitRC ⟨[], selfMsg⟩ sof (some e) frames fs
          = ⟨false, none, fs⟩) := by
  refine ⟨rfl, ?_, ?_⟩
  · rintro rfl
    rcases selfMsg with _ | m <;> exact ⟨rfl, rfl⟩
  · rintro rfl
    rfl

/-- C10 (witness): an assertion failure inside `raises()` with no
expected types, Strict Mode off: logged once and suppressed. -/
theorem c10_witness :
    (CheckRaisesContext.exitRC ⟨[], none⟩ false
        (some ⟨ExcType.assertionError, "boom"⟩) [] []).suppress = true
    ∧ (CheckRaisesContext.exitRC ⟨[], none⟩ false
        (some ⟨ExcType.assertionError, "boom"⟩) [] []).failures
        = [mkEntry (Msg.exc ⟨ExcType.assertionError, "boom"⟩) []] :=
  (c10_empty_expected_types ⟨ExcType.assertionError, "boom"⟩ none [] [] false).2.1 rfl

end PytestCheck
